import Mathlib

/-!
Shallow embedding of the document-chat application in `rag_multi_gemini.py`.

External effects (the generation service, the embedding service, file loading)
are modelled as explicit parameters: a generation call is an
`Except String String` (error message or returned text), the evaluation model
is an oracle `String → Except String String` from the request sent to the
result, and index construction results are `Option` values (`none` on a build
error, mirroring the `try/except` blocks that return `None`).
Python string operations used by the code (`str.strip`, `str.split`,
slicing `[:1000]`, `str.join`) are embedded over `List Char`.
-/

namespace Rag

/-! ### Python string primitives -/

/-- Embedding of Python `str.strip()`: drop leading and trailing whitespace. -/
def pyStrip (s : String) : String :=
  ⟨((s.data.dropWhile Char.isWhitespace).reverse.dropWhile Char.isWhitespace).reverse⟩

/-- Worker for Python `str.split()` (split on whitespace runs, no empty parts);
`acc` holds the current word reversed. -/
def pySplitAux : List Char → List Char → List (List Char)
  | acc, [] => if acc.isEmpty then [] else [acc.reverse]
  | acc, c :: cs =>
    if c.isWhitespace then
      if acc.isEmpty then pySplitAux [] cs else acc.reverse :: pySplitAux [] cs
    else pySplitAux (c :: acc) cs

/-- Embedding of Python `str.split()` with no separator argument. -/
def pySplit (s : String) : List String :=
  (pySplitAux [] s.data).map (fun w => ⟨w⟩)

/-- Embedding of Python slicing `s[:n]` (by characters). -/
def pyTruncate (n : Nat) (s : String) : String :=
  ⟨s.data.take n⟩

/-- Whitespace normalisation: every maximal run of whitespace becomes a single
space, and the Bool flag says whether we are already inside a whitespace run
(so a leading run is dropped when the flag starts `true`). Used to state what
the word-by-word streaming does to the raw model text. -/
def collapseWsAux : Bool → List Char → List Char
  | _, [] => []
  | inWs, c :: cs =>
    if c.isWhitespace then
      if inWs then collapseWsAux true cs else ' ' :: collapseWsAux true cs
    else c :: collapseWsAux false cs

/-! ### AppConfig (lines 13-37 of the source) -/

namespace AppConfig

def CHUNK_SIZE : Nat := 512

def CHUNK_OVERLAP : Nat := 50

def TOP_K_RESULTS : Nat := 5

def MAX_TOKENS : Nat := 1024

def DEFAULT_TEMPERATURE : ℚ := 3 / 10

def EVAL_TEMPERATURE : ℚ := 2 / 10

def GEMINI_MODELS : List (String × String) :=
  [("Gemini 1.5 Pro", "gemini-1.5-pro-latest"),
   ("Gemini 2.0 Flash", "gemini-2.0-flash-exp")]

def EVALUATION_CRITERIA : List String :=
  ["Relevance to the original query",
   "Accuracy of information",
   "Clarity and coherence",
   "Comprehensiveness",
   "Use of context from provided documents"]

end AppConfig

/-! ### The response generator (lines 343-361) -/

/-- The fixed fallback message of `_response_generator`. -/
def fallbackMessage : String :=
  "I couldn\x27t find a relevant response. Could you rephrase your question?"

/-- `_response_generator` (lines 343-361), as the finite list of tokens the
generator yields.  The chat-engine query is the `Except` argument: `error e`
when `chat_engine.query` raises with message `e`, `ok response` when it
returns text `response`. -/
def response_generator (queryResult : Except String String) : List String :=
  match queryResult with
  | Except.error e => ["An error occurred: " ++ e]
  | Except.ok response =>
    if pyStrip response = "" then [fallbackMessage]
    else (pySplit response).map (fun w => w ++ " ")

/-- The consumer loop of `_process_user_input` (lines 321-324):
`full_response` starts empty and each yielded word is appended. -/
def assembleResponse (tokens : List String) : String :=
  tokens.foldl (fun acc w => acc ++ w) ""

/-! ### The evaluator (lines 101-134) -/

/-- Line 105: `"\n".join([doc.text for doc in context_docs]) if context_docs
else "No context documents provided."`. -/
def contextText (contextDocs : List String) : String :=
  if contextDocs.isEmpty then "No context documents provided."
  else String.intercalate "\n" contextDocs

def evalPromptHeader : String :=
  "Evaluate the following response based on these criteria:\n            "

def evalPromptQueryLabel : String :=
  "\n\n            Original Query: "

def evalPromptContextLabel : String :=
  "\n            Context Documents: "

def evalPromptResponseLabel : String :=
  "  # Limit context to prevent token overflow\n            Response: "

def evalPromptFooter : String :=
  "\n\n            Please provide:\n            1. A score (0-10) for each criterion\n            2. A brief explanation for each score\n            3. An overall assessment of the response quality\n            4. Suggestions for improvement if applicable\n\n            Format your response as:\n            Criterion 1 Score: X/10 - Explanation\n            Criterion 2 Score: X/10 - Explanation\n            ...\n            Overall Score: X/10\n            Improvement Suggestions: [List]\n            "

/-- The `eval_prompt` f-string of `_evaluate_response` (lines 108-127). -/
def evalPrompt (prompt response : String) (contextDocs : List String) : String :=
  evalPromptHeader
    ++ String.intercalate ", " AppConfig.EVALUATION_CRITERIA
    ++ evalPromptQueryLabel ++ prompt
    ++ evalPromptContextLabel ++ pyTruncate 1000 (contextText contextDocs)
    ++ evalPromptResponseLabel ++ response
    ++ evalPromptFooter

/-- `_evaluate_response` (lines 101-134).  `oracle` is the evaluation model:
it maps the request actually sent to either the returned report text or an
exception message; the `except` branch returns the diagnostic string. -/
def evaluate_response (prompt response : String) (contextDocs : List String)
    (oracle : String → Except String String) : String :=
  match oracle (evalPrompt prompt response contextDocs) with
  | Except.ok evaluation => evaluation
  | Except.error e => "Evaluation failed: " ++ e

/-! ### Session state and the orchestrator (lines 234-341) -/

/-- One chat-history entry (the dicts appended to `st.session_state.messages`).
`evaluation` is `none` when the key is absent or `None`. -/
structure Turn where
  role : String
  content : String
  evaluation : Option String
deriving DecidableEq

/-- The `st.session_state` fields the orchestrator reads and writes.  Indexes
and chat engines are identified by opaque ids; `none` means the Python value
is `None` (or, for `chatEngine`, the attribute is absent or falsy). -/
structure SessionState where
  messages : List Turn
  conversationContext : Option String
  vectorIndex : Option Nat
  chatEngine : Option Nat
  selectedFiles : List String
  temperature : ℚ
  enableEvaluation : Bool
deriving DecidableEq

/-- The `Clear Conversation` button handler (lines 235-238): it resets
`messages`, `conversation_context` and `vector_index`, and touches nothing
else. -/
def clear_conversation (s : SessionState) : SessionState :=
  { s with messages := [], conversationContext := none, vectorIndex := none }

/-- The models built by `_initialize_models` (lines 73-99), keeping the
construction parameters that matter to the spec. -/
structure ModelsInit where
  llmModel : String
  llmTemperature : ℚ
  llmMaxTokens : Nat
  embedModelName : String
  evalModel : String
  evalTemperature : ℚ
  evalMaxTokens : Nat
deriving DecidableEq

/-- `_initialize_models` (lines 73-99): the synthesis model uses the session
temperature, the evaluation model the fixed `EVAL_TEMPERATURE`. -/
def initialize_models (selectedModel : String) (sessionTemperature : ℚ) : ModelsInit :=
  { llmModel := "models/" ++ ((AppConfig.GEMINI_MODELS.lookup selectedModel).getD "gemini-2.0-flash-exp"),
    llmTemperature := sessionTemperature,
    llmMaxTokens := AppConfig.MAX_TOKENS,
    embedModelName := "models/embedding-001",
    evalModel := "models/gemini-2.0-flash-exp",
    evalTemperature := AppConfig.EVAL_TEMPERATURE,
    evalMaxTokens := AppConfig.MAX_TOKENS }

/-- The temperature slider of `_setup_sidebar` (lines 205-211): values range
over 0.0 to 1.0. -/
def temperatureAllowed (t : ℚ) : Prop :=
  0 ≤ t ∧ t ≤ 1

def infoSelectAtLeastOne : String :=
  "Please select at least one document."

def infoLoadDocuments : String :=
  "Please select and load documents to start chatting."

/-- `_process_local_documents` (lines 257-290).  `loadedDocuments` is the
result of `_load_local_documents` (empty on a load failure, lines 136-157);
`buildResult` is the result of `_create_vector_index` (`none` when index
construction raised, lines 159-170); `engineResult` that of
`_initialize_chat_engine` (lines 172-181).  Returns the new state and the
`st.info` message shown, if any. -/
def process_local_documents (s : SessionState) (loadedDocuments : List String)
    (buildResult : Option Nat) (engineResult : Option Nat) :
    SessionState × Option String :=
  if s.selectedFiles.isEmpty then (s, some infoSelectAtLeastOne)
  else if loadedDocuments.isEmpty then (s, none)
  else
    let s1 := { s with vectorIndex := buildResult }
    match buildResult with
    | some _ => ({ s1 with chatEngine := engineResult }, none)
    | none => (s1, none)

/-- The observable outcome of one `_process_user_input` run (lines 303-341):
the updated message history, the `st.info` text when the chat engine is
missing, the evaluation request actually issued (if any), and the answer text
rendered into the placeholder. -/
structure TurnResult where
  messages : List Turn
  displayedInfo : Option String
  evalRequest : Option String
  deliveredAnswer : Option String
deriving DecidableEq

/-- `_process_user_input` (lines 303-341).  `documents` is `self.documents`
(the loaded documents passed to evaluation at line 333), `evalModelPresent`
models `self.eval_model` being set, `prompt` the submitted question,
`queryResult` the chat-engine call inside `_response_generator`, and
`oracle` the evaluation model call. -/
def process_user_input (s : SessionState) (documents : List String)
    (evalModelPresent : Bool) (prompt : String)
    (queryResult : Except String String)
    (oracle : String → Except String String) : TurnResult :=
  match s.chatEngine with
  | none =>
    { messages := s.messages, displayedInfo := some infoLoadDocuments,
      evalRequest := none, deliveredAnswer := none }
  | some _ =>
    let fullResponse := assembleResponse (response_generator queryResult)
    let doEval := s.enableEvaluation && evalModelPresent
    { messages :=
        s.messages
          ++ [{ role := "user", content := prompt, evaluation := none },
              { role := "assistant", content := fullResponse,
                evaluation :=
                  if s.enableEvaluation then
                    some (if doEval then
                            evaluate_response prompt fullResponse documents oracle
                          else "")
                  else none }],
      displayedInfo := none,
      evalRequest :=
        if doEval then some (evalPrompt prompt fullResponse documents) else none,
      deliveredAnswer := some fullResponse }

/-- `s` contains `t` as a contiguous substring. -/
def containsStr (s t : String) : Prop :=
  ∃ a b : String, s = a ++ t ++ b

/-! ### Concrete states used by counterexamples and witnesses -/

/-- A session that already holds a built index and chat engine. -/
def sessionWithIndex : SessionState :=
  { messages := [], conversationContext := none, vectorIndex := some 1,
    chatEngine := some 1, selectedFiles := ["a.txt"], temperature := 0,
    enableEvaluation := true }

/-- A fresh session: nothing selected, nothing ever built. -/
def sessionFresh : SessionState :=
  { messages := [], conversationContext := none, vectorIndex := none,
    chatEngine := none, selectedFiles := [], temperature := 0,
    enableEvaluation := true }

/-- A session with history and a built engine, about to be cleared; the user
has meanwhile deselected all documents. -/
def sessionBeforeClear : SessionState :=
  { messages := [{ role := "user", content := "old question", evaluation := none },
                 { role := "assistant", content := "old answer", evaluation := some "report" }],
    conversationContext := some "ctx", vectorIndex := some 5,
    chatEngine := some 5, selectedFiles := [], temperature := 0,
    enableEvaluation := false }

/-- A session with a built engine and evaluation switched off. -/
def sessionEvalOff : SessionState :=
  { messages := [], conversationContext := none, vectorIndex := some 0,
    chatEngine := some 0, selectedFiles := ["f.txt"], temperature := 0,
    enableEvaluation := false }

/-- An evaluation model that always raises. -/
def evalOracleBoom : String → Except String String :=
  fun _ => Except.error "boom"

/-- An evaluation model that returns the request it was sent, exposing the
request actually issued. -/
def echoOracle : String → Except String String :=
  fun p => Except.ok p

def loadedDocsEx : List String := ["LOADED DOCUMENT TEXT"]

def retrievedChunksEx : List String := ["RETRIEVED CHUNK TEXT"]

end Rag

namespace Rag

/-! ### String and whitespace lemmas -/

theorem mk_data (l : List Char) : (String.mk l).data = l := rfl

theorem data_append (a b : String) : (a ++ b).data = a.data ++ b.data := by
  cases a; cases b; rfl

theorem str_ext {a b : String} (h : a.data = b.data) : a = b := by
  cases a; cases b; exact congrArg String.mk h

theorem str_append_assoc (a b c : String) : a ++ b ++ c = a ++ (b ++ c) :=
  str_ext (by simp [data_append, List.append_assoc])

theorem str_append_empty (a : String) : a ++ "" = a :=
  str_ext (by simp [data_append])

theorem space_isWhitespace : (' ').isWhitespace = true := rfl

theorem dropWhile_eq_nil_of_all {p : Char → Bool} (l : List Char)
    (h : l.all p = true) : l.dropWhile p = [] := by
  induction l with
  | nil => rfl
  | cons c cs ih =>
    simp only [List.all_cons, Bool.and_eq_true] at h
    simp [List.dropWhile_cons, h.1, ih h.2]

theorem pyStrip_eq_empty_of_all (s : String)
    (h : s.data.all Char.isWhitespace = true) : pyStrip s = "" := by
  unfold pyStrip
  rw [dropWhile_eq_nil_of_all _ h]
  rfl

theorem all_ws_false_of_pyStrip_ne (s : String) (h : pyStrip s ≠ "") :
    s.data.all Char.isWhitespace = false := by
  cases hall : s.data.all Char.isWhitespace with
  | false => rfl
  | true => exact absurd (pyStrip_eq_empty_of_all s hall) h

/-- Flattening the split words, each with one trailing space, performs exactly
whitespace collapsing on the input followed by a single space. -/
theorem splitFlat (s : List Char) : ∀ acc : List Char,
    ((pySplitAux acc s).map (fun w => w ++ [' '])).flatten
      = acc.reverse ++ collapseWsAux acc.isEmpty (s ++ [' ']) := by
  induction s with
  | nil =>
    intro acc
    cases acc with
    | nil => rfl
    | cons a as => simp [pySplitAux, collapseWsAux, space_isWhitespace]
  | cons c cs ih =>
    intro acc
    by_cases hc : c.isWhitespace
    · cases acc with
      | nil => simp [pySplitAux, collapseWsAux, hc, ih]
      | cons a as =>
        simp [pySplitAux, collapseWsAux, hc, ih, List.append_assoc]
    · cases acc with
      | nil => simpa [pySplitAux, collapseWsAux, hc] using ih [c]
      | cons a as =>
        simpa [pySplitAux, collapseWsAux, hc, List.append_assoc]
          using ih (c :: a :: as)

theorem pySplitAux_ne_nil (s : List Char) : ∀ acc : List Char,
    acc ≠ [] ∨ s.all Char.isWhitespace = false → pySplitAux acc s ≠ [] := by
  induction s with
  | nil =>
    intro acc h
    cases acc with
    | nil =>
      rcases h with h | h
      · exact absurd rfl h
      · simp at h
    | cons a as => simp [pySplitAux]
  | cons c cs ih =>
    intro acc h
    by_cases hc : c.isWhitespace
    · cases acc with
      | nil =>
        rcases h with h | h
        · exact absurd rfl h
        · have hcs : cs.all Char.isWhitespace = false := by
            simpa [List.all_cons, hc] using h
          simpa [pySplitAux, hc] using ih [] (Or.inr hcs)
      | cons a as => simp [pySplitAux, hc]
    · simp only [pySplitAux, hc]
      simp only [Bool.false_eq_true, if_false]
      exact ih (c :: acc) (Or.inl (by simp))

theorem foldl_append_data (tokens : List String) : ∀ init : String,
    (tokens.foldl (fun acc w => acc ++ w) init).data
      = init.data ++ (tokens.map String.data).flatten := by
  induction tokens with
  | nil => intro init; simp [List.foldl]
  | cons t ts ih =>
    intro init
    simp [List.foldl, ih, data_append, List.append_assoc]

theorem assembleResponse_data (tokens : List String) :
    (assembleResponse tokens).data = (tokens.map String.data).flatten := by
  simpa using foldl_append_data tokens ""

theorem space_data : (" " : String).data = [' '] := rfl

/-- The token list of a non-blank successful response, as character lists:
the split words, each with one trailing space. -/
theorem tokens_data (s : String) :
    (((pySplit s).map (fun w => w ++ " ")).map String.data)
      = (pySplitAux [] s.data).map (fun w => w ++ [' ']) := by
  simp [pySplit, List.map_map, Function.comp_def, data_append, mk_data, space_data]

/-! ### Claim theorems -/

/-- Claim C2: if the underlying generation call returns an empty or
whitespace-only result, the response generator yields exactly one token,
equal to the fixed fallback message, and then terminates. -/
theorem claim_C2 (response : String)
    (h : response.data.all Char.isWhitespace = true) :
    response_generator (Except.ok response) = [fallbackMessage] := by
  simp [response_generator, pyStrip_eq_empty_of_all response h]

/-- Witness for C2 at the whitespace-only response `"  \n\t "`. -/
theorem claim_C2_witness :
    ("  \n\t ").data.all Char.isWhitespace = true
    ∧ response_generator (Except.ok "  \n\t ") = [fallbackMessage] :=
  ⟨by decide, claim_C2 "  \n\t " (by decide)⟩

/-- Claim C3: if the generation call raises, the stream is the single
diagnostic token containing the error text, and nothing is propagated
(the generator is a total function into a one-element list). -/
theorem claim_C3 (e : String) :
    response_generator (Except.error e) = ["An error occurred: " ++ e]
    ∧ (response_generator (Except.error e)).length = 1
    ∧ containsStr ("An error occurred: " ++ e) e := by
  refine ⟨rfl, rfl, ?_⟩
  exact ⟨"An error occurred: ", "", (str_append_empty _).symm⟩

/-- Claim C10: for a non-blank successful response, the concatenated token
stream is exactly the whitespace-delimited words each followed by one space;
equivalently, the delivered text is the whitespace-collapsed form of the raw
response with a single trailing space appended. -/
theorem claim_C10 (response : String) (h : pyStrip response ≠ "") :
    response_generator (Except.ok response)
        = (pySplit response).map (fun w => w ++ " ")
    ∧ (assembleResponse (response_generator (Except.ok response))).data
        = collapseWsAux true (response.data ++ [' '])
    ∧ ∃ u, (assembleResponse (response_generator (Except.ok response))).data
        = u ++ [' '] := by
  have hgen : response_generator (Except.ok response)
      = (pySplit response).map (fun w => w ++ " ") := by
    simp [response_generator, h]
  have hdata : (assembleResponse (response_generator (Except.ok response))).data
      = ((pySplitAux [] response.data).map (fun w => w ++ [' '])).flatten := by
    rw [hgen, assembleResponse_data, tokens_data]
  refine ⟨hgen, ?_, ?_⟩
  · rw [hdata]
    simpa using splitFlat response.data []
  · have hne : pySplitAux [] response.data ≠ [] :=
      pySplitAux_ne_nil response.data []
        (Or.inr (all_ws_false_of_pyStrip_ne response h))
    rcases List.eq_nil_or_concat (pySplitAux [] response.data) with hnil | ⟨L, w, hLw⟩
    · exact absurd hnil hne
    · refine ⟨((L.map (fun w => w ++ [' '])).flatten) ++ w, ?_⟩
      rw [hdata, hLw]
      simp [List.append_assoc]

/-- Witness for C10 at the response `"Gemini  answers\nhere"`. -/
theorem claim_C10_witness :
    pyStrip "Gemini  answers\nhere" ≠ ""
    ∧ (response_generator (Except.ok "Gemini  answers\nhere")
          = (pySplit "Gemini  answers\nhere").map (fun w => w ++ " ")
      ∧ (assembleResponse (response_generator (Except.ok "Gemini  answers\nhere"))).data
          = collapseWsAux true (("Gemini  answers\nhere").data ++ [' '])
      ∧ ∃ u, (assembleResponse (response_generator (Except.ok "Gemini  answers\nhere"))).data
          = u ++ [' ']) :=
  ⟨by decide, claim_C10 "Gemini  answers\nhere" (by decide)⟩

/-- Claim C4 counterexample: the session temperature 0 is inside the allowed
slider range 0.0 to 1.0, yet the fixed evaluation temperature 0.2 is not
strictly lower than it. -/
theorem claim_C4_counterexample :
    temperatureAllowed 0
    ∧ ¬ ((initialize_models "Gemini 1.5 Pro" 0).evalTemperature
          < (initialize_models "Gemini 1.5 Pro" 0).llmTemperature) := by
  constructor
  · exact ⟨le_refl 0, by norm_num⟩
  · simp [initialize_models, AppConfig.EVAL_TEMPERATURE]
    norm_num

/-- Claim C4 (amended): the evaluation call always uses the fixed temperature
0.2, which is strictly lower than the default synthesis temperature 0.3; it is
strictly lower than the session temperature exactly when the latter exceeds
0.2, which some allowed slider values (0.0 to 0.2) do not. -/
theorem claim_C4_amended :
    AppConfig.EVAL_TEMPERATURE < AppConfig.DEFAULT_TEMPERATURE
    ∧ (∀ (m : String) (t : ℚ),
        (initialize_models m t).evalTemperature = AppConfig.EVAL_TEMPERATURE
        ∧ (initialize_models m t).llmTemperature = t)
    ∧ (∀ (m : String) (t : ℚ), AppConfig.EVAL_TEMPERATURE < t →
        (initialize_models m t).evalTemperature
          < (initialize_models m t).llmTemperature) := by
  refine ⟨?_, fun m t => ⟨rfl, rfl⟩, fun m t ht => ?_⟩
  · norm_num [AppConfig.EVAL_TEMPERATURE, AppConfig.DEFAULT_TEMPERATURE]
  · simpa [initialize_models] using ht

/-- Witness for C4 (amended) at the default session temperature 0.3. -/
theorem claim_C4_witness :
    AppConfig.EVAL_TEMPERATURE < (3 / 10 : ℚ)
    ∧ (initialize_models "Gemini 1.5 Pro" (3 / 10)).evalTemperature
        < (initialize_models "Gemini 1.5 Pro" (3 / 10)).llmTemperature :=
  ⟨by norm_num [AppConfig.EVAL_TEMPERATURE],
   claim_C4_amended.2.2 "Gemini 1.5 Pro" (3 / 10)
     (by norm_num [AppConfig.EVAL_TEMPERATURE])⟩

/-- Claim C5: evaluation is invoked only when the flag is on (off yields no
request and a `none` report on the stored turn), the single request issued
embeds the fully assembled answer, and the delivered answer does not depend
on the flag. -/
theorem claim_C5 (s : SessionState) (documents : List String) (emp : Bool)
    (prompt : String) (queryResult : Except String String)
    (oracle : String → Except String String) (eng : Nat)
    (h : s.chatEngine = some eng) :
    (s.enableEvaluation = false →
      (process_user_input s documents emp prompt queryResult oracle).evalRequest = none
      ∧ (process_user_input s documents emp prompt queryResult oracle).messages
          = s.messages
            ++ [{ role := "user", content := prompt, evaluation := none },
                { role := "assistant",
                  content := assembleResponse (response_generator queryResult),
                  evaluation := none }])
    ∧ (s.enableEvaluation = true → emp = true →
        (process_user_input s documents emp prompt queryResult oracle).evalRequest
          = some (evalPrompt prompt
              (assembleResponse (response_generator queryResult)) documents))
    ∧ (process_user_input { s with enableEvaluation := false }
          documents emp prompt queryResult oracle).deliveredAnswer
        = (process_user_input { s with enableEvaluation := true }
            documents emp prompt queryResult oracle).deliveredAnswer := by
  refine ⟨fun hev => ?_, fun hev hemp => ?_, ?_⟩
  · simp [process_user_input, h, hev]
  · simp [process_user_input, h, hev, hemp]
  · simp [process_user_input, h]

/-- Witness for C5: a concrete session with evaluation disabled. -/
theorem claim_C5_witness :
    sessionEvalOff.chatEngine = some 0
    ∧ sessionEvalOff.enableEvaluation = false
    ∧ ((process_user_input sessionEvalOff ["doc"] true "q" (Except.ok "hi") evalOracleBoom).evalRequest = none
      ∧ (process_user_input sessionEvalOff ["doc"] true "q" (Except.ok "hi") evalOracleBoom).messages
          = sessionEvalOff.messages
            ++ [{ role := "user", content := "q", evaluation := none },
                { role := "assistant",
                  content := assembleResponse (response_generator (Except.ok "hi")),
                  evaluation := none }]) :=
  ⟨rfl, rfl,
   (claim_C5 sessionEvalOff ["doc"] true "q" (Except.ok "hi") evalOracleBoom 0 rfl).1 rfl⟩

/-- Claim C6: when the evaluation call raises, the report is the diagnostic
string containing the error, and neither the stored answer texts nor the
delivered answer depend on the evaluation call at all. -/
theorem claim_C6 (prompt response : String) (docs : List String) (e : String)
    (oracle : String → Except String String)
    (h : ∀ p, oracle p = Except.error e) :
    evaluate_response prompt response docs oracle = "Evaluation failed: " ++ e
    ∧ containsStr (evaluate_response prompt response docs oracle) e
    ∧ ∀ (s : SessionState) (documents : List String) (emp : Bool)
        (queryResult : Except String String)
        (o2 : String → Except String String),
        ((process_user_input s documents emp prompt queryResult oracle).messages.map Turn.content
          = (process_user_input s documents emp prompt queryResult o2).messages.map Turn.content)
        ∧ (process_user_input s documents emp prompt queryResult oracle).deliveredAnswer
          = (process_user_input s documents emp prompt queryResult o2).deliveredAnswer := by
  have h1 : evaluate_response prompt response docs oracle = "Evaluation failed: " ++ e := by
    simp [evaluate_response, h]
  refine ⟨h1, ?_, ?_⟩
  · rw [h1]
    exact ⟨"Evaluation failed: ", "", (str_append_empty _).symm⟩
  · intro s documents emp queryResult o2
    cases hc : s.chatEngine with
    | none => simp [process_user_input, hc]
    | some eng => simp [process_user_input, hc]

/-- Witness for C6 with an evaluation model that always raises `"boom"`. -/
theorem claim_C6_witness :
    (∀ p, evalOracleBoom p = Except.error "boom")
    ∧ evaluate_response "q" "ans" ["d"] evalOracleBoom = "Evaluation failed: " ++ "boom" :=
  ⟨fun _ => rfl,
   (claim_C6 "q" "ans" ["d"] "boom" evalOracleBoom (fun _ => rfl)).1⟩

set_option maxRecDepth 10000 in
/-- Claim C7 counterexample: in a turn where the loaded documents differ from
the chunks retrieval would supply, the evaluation request is built from the
loaded documents (`self.documents`), and that request differs from the one the
retrieved context would produce — refuting that the context supplied is the
retrieved context for the turn. -/
theorem claim_C7_counterexample :
    (process_user_input sessionWithIndex loadedDocsEx true "q" (Except.ok "ans") echoOracle).evalRequest
      = some (evalPrompt "q" "ans " loadedDocsEx)
    ∧ evalPrompt "q" "ans " loadedDocsEx ≠ evalPrompt "q" "ans " retrievedChunksEx := by
  constructor
  · decide
  · decide

/-- Claim C7 (amended): the single evaluation request contains the query, the
produced answer, the rubric of 5 named criteria and the first 1000 characters
of the concatenated context, everything past 1000 characters being dropped;
the context supplied is the list of loaded documents (`self.documents`), not
the per-turn retrieved chunks. -/
theorem claim_C7_amended (prompt response : String) (docs : List String) :
    containsStr (evalPrompt prompt response docs) prompt
    ∧ containsStr (evalPrompt prompt response docs) response
    ∧ containsStr (evalPrompt prompt response docs)
        (String.intercalate ", " AppConfig.EVALUATION_CRITERIA)
    ∧ AppConfig.EVALUATION_CRITERIA.length = 5
    ∧ containsStr (evalPrompt prompt response docs)
        (pyTruncate 1000 (contextText docs))
    ∧ (pyTruncate 1000 (contextText docs)).data.length ≤ 1000
    ∧ ((contextText docs).data.length ≤ 1000 →
        pyTruncate 1000 (contextText docs) = contextText docs)
    ∧ ∀ (s : SessionState) (emp : Bool) (queryResult : Except String String)
        (oracle : String → Except String String) (eng : Nat),
        s.chatEngine = some eng → s.enableEvaluation = true → emp = true →
        (process_user_input s docs emp prompt queryResult oracle).evalRequest
          = some (evalPrompt prompt
              (assembleResponse (response_generator queryResult)) docs) := by
  refine ⟨?_, ?_, ?_, rfl, ?_, ?_, ?_, ?_⟩
  · exact ⟨evalPromptHeader ++ String.intercalate ", " AppConfig.EVALUATION_CRITERIA
        ++ evalPromptQueryLabel,
      evalPromptContextLabel ++ pyTruncate 1000 (contextText docs)
        ++ evalPromptResponseLabel ++ response ++ evalPromptFooter,
      str_ext (by simp [evalPrompt, data_append, List.append_assoc])⟩
  · exact ⟨evalPromptHeader ++ String.intercalate ", " AppConfig.EVALUATION_CRITERIA
        ++ evalPromptQueryLabel ++ prompt ++ evalPromptContextLabel
        ++ pyTruncate 1000 (contextText docs) ++ evalPromptResponseLabel,
      evalPromptFooter,
      str_ext (by simp [evalPrompt, data_append, List.append_assoc])⟩
  · exact ⟨evalPromptHeader,
      evalPromptQueryLabel ++ prompt ++ evalPromptContextLabel
        ++ pyTruncate 1000 (contextText docs) ++ evalPromptResponseLabel
        ++ response ++ evalPromptFooter,
      str_ext (by simp [evalPrompt, data_append, List.append_assoc])⟩
  · exact ⟨evalPromptHeader ++ String.intercalate ", " AppConfig.EVALUATION_CRITERIA
        ++ evalPromptQueryLabel ++ prompt ++ evalPromptContextLabel,
      evalPromptResponseLabel ++ response ++ evalPromptFooter,
      str_ext (by simp [evalPrompt, data_append, List.append_assoc])⟩
  · simp [pyTruncate, List.length_take]
  · intro hlen
    exact str_ext (by simp [pyTruncate, List.take_of_length_le hlen])
  · intro s emp queryResult oracle eng hch hev hemp
    simp [process_user_input, hch, hev, hemp]

/-- Witness for C7 (amended): the request issued in a concrete enabled turn. -/
theorem claim_C7_witness :
    sessionWithIndex.chatEngine = some 1
    ∧ sessionWithIndex.enableEvaluation = true
    ∧ (process_user_input sessionWithIndex loadedDocsEx true "q2" (Except.ok "hello") echoOracle).evalRequest
        = some (evalPrompt "q2"
            (assembleResponse (response_generator (Except.ok "hello"))) loadedDocsEx) :=
  ⟨rfl, rfl,
   (claim_C7_amended "q2" "" loadedDocsEx).2.2.2.2.2.2.2
     sessionWithIndex true (Except.ok "hello") echoOracle 1 rfl rfl rfl⟩

/-- Claim C1 counterexample: a failed rebuild does not leave the prior state
intact — the previously stored index reference is overwritten with `None`. -/
theorem claim_C1_counterexample :
    sessionWithIndex.vectorIndex = some 1
    ∧ (process_local_documents sessionWithIndex ["doc text"] none none).1.vectorIndex = none
    ∧ (process_local_documents sessionWithIndex ["doc text"] none none).1
        ≠ sessionWithIndex :=
  ⟨rfl, rfl, by decide⟩

/-- Claim C1 (amended): a failed build never touches the chat engine through
which all queries are answered (so the previously built index remains active
for subsequent queries) or the history, but it overwrites the stored
`vector_index` with `None` instead of leaving it intact; a successful build
replaces both the index and the engine in one step. -/
theorem claim_C1_amended (s : SessionState) (loadedDocuments : List String)
    (engineResult : Option Nat) :
    (process_local_documents s loadedDocuments none engineResult).1.chatEngine
        = s.chatEngine
    ∧ (process_local_documents s loadedDocuments none engineResult).1.messages
        = s.messages
    ∧ (s.selectedFiles.isEmpty = false → loadedDocuments.isEmpty = false →
        (process_local_documents s loadedDocuments none engineResult).1.vectorIndex
          = none)
    ∧ ∀ i : Nat, s.selectedFiles.isEmpty = false →
        loadedDocuments.isEmpty = false →
        (process_local_documents s loadedDocuments (some i) engineResult).1
          = { s with vectorIndex := some i, chatEngine := engineResult } := by
  refine ⟨?_, ?_, fun h1 h2 => ?_, fun i h1 h2 => ?_⟩
  · unfold process_local_documents
    by_cases hs : s.selectedFiles.isEmpty <;>
      by_cases hd : loadedDocuments.isEmpty <;> simp [hs, hd]
  · unfold process_local_documents
    by_cases hs : s.selectedFiles.isEmpty <;>
      by_cases hd : loadedDocuments.isEmpty <;> simp [hs, hd]
  · simp [process_local_documents, h1, h2]
  · simp [process_local_documents, h1, h2]

/-- Witness for C1 (amended) at a session holding a working index. -/
theorem claim_C1_witness :
    sessionWithIndex.selectedFiles.isEmpty = false
    ∧ (["doc text"] : List String).isEmpty = false
    ∧ (process_local_documents sessionWithIndex ["doc text"] none (some 9)).1.vectorIndex
        = none :=
  ⟨rfl, rfl,
   (claim_C1_amended sessionWithIndex ["doc text"] (some 9)).2.2.1 rfl rfl⟩

/-- Claim C8 counterexample: after `Clear Conversation` (and a rerun with no
documents selected) the chat engine built from the prior index is still held,
and a submitted question is answered through it. -/
theorem claim_C8_counterexample :
    (clear_conversation sessionBeforeClear).chatEngine = some 5
    ∧ (process_local_documents (clear_conversation sessionBeforeClear) [] none none).1.chatEngine
        = some 5
    ∧ (process_user_input
          (process_local_documents (clear_conversation sessionBeforeClear) [] none none).1
          [] false "next question" (Except.ok "answer from old index") evalOracleBoom).deliveredAnswer
        = some "answer from old index "
    ∧ (process_user_input
          (process_local_documents (clear_conversation sessionBeforeClear) [] none none).1
          [] false "next question" (Except.ok "answer from old index") evalOracleBoom).messages
        ≠ [] := by
  refine ⟨rfl, rfl, by decide, by decide⟩

/-- Claim C8 (amended): clearing empties the history and resets the
conversation context and the stored index reference, but retains the chat
engine, so a question submitted afterwards (with no documents selected, hence
no rebuild) is still answered against the previously built engine. -/
theorem claim_C8_amended (s : SessionState) :
    (clear_conversation s).messages = []
    ∧ (clear_conversation s).conversationContext = none
    ∧ (clear_conversation s).vectorIndex = none
    ∧ (clear_conversation s).chatEngine = s.chatEngine
    ∧ (clear_conversation s).selectedFiles = s.selectedFiles := by
  simp [clear_conversation]

/-- Claim C9: with no documents selected and nothing ever built, the
orchestrator reports that documents must be selected, leaves the state
unchanged, and a submitted question produces only an informational message —
no answer, no history change, no crash (all transitions are total). -/
theorem claim_C9 (s : SessionState) (documents : List String)
    (buildResult engineResult : Option Nat) (emp : Bool) (prompt : String)
    (queryResult : Except String String)
    (oracle : String → Except String String)
    (hsel : s.selectedFiles = []) (heng : s.chatEngine = none) :
    (process_local_documents s documents buildResult engineResult).2
        = some infoSelectAtLeastOne
    ∧ (process_local_documents s documents buildResult engineResult).1 = s
    ∧ (process_user_input s documents emp prompt queryResult oracle).displayedInfo
        = some infoLoadDocuments
    ∧ (process_user_input s documents emp prompt queryResult oracle).messages
        = s.messages
    ∧ (process_user_input s documents emp prompt queryResult oracle).deliveredAnswer
        = none := by
  refine ⟨?_, ?_, ?_, ?_, ?_⟩ <;>
    simp [process_local_documents, process_user_input, hsel, heng]

/-- Witness for C9 at the fresh session. -/
theorem claim_C9_witness :
    sessionFresh.selectedFiles = []
    ∧ sessionFresh.chatEngine = none
    ∧ ((process_local_documents sessionFresh [] none none).2
          = some infoSelectAtLeastOne
      ∧ (process_local_documents sessionFresh [] none none).1 = sessionFresh
      ∧ (process_user_input sessionFresh [] true "hello" (Except.ok "x") evalOracleBoom).displayedInfo
          = some infoLoadDocuments
      ∧ (process_user_input sessionFresh [] true "hello" (Except.ok "x") evalOracleBoom).messages
          = sessionFresh.messages
      ∧ (process_user_input sessionFresh [] true "hello" (Except.ok "x") evalOracleBoom).deliveredAnswer
          = none) :=
  ⟨rfl, rfl,
   claim_C9 sessionFresh [] none none true "hello" (Except.ok "x") evalOracleBoom rfl rfl⟩

end Rag
